import Mathlib

/-!
Verification of the ProComp live-match control plane against its source.

The data model and the operations below are shallow embeddings of the
TypeScript source:
- `src/packages/utils/src/lib/match-types.ts` (`Score`, `MatchState`,
  `ScoreAction`, `Match`, `createInitialScore`, `applyScoreAction`,
  `getMatchWinner`),
- `src/packages/utils/src/lib/use-match-websocket.ts` (`sendScoreUpdate`,
  `sendMatchStateUpdate` and their optimistic local updates),
- `src/apps/web/app/referee/[matchId]/page.tsx` (the `onMatchUpdate`
  auto-finish callback; its local copy of `getMatchWinner` is textually
  identical to the one in match-types.ts, so one definition covers both),
- the demo WebSocket hook (`createDemoMatch` and its one-second ticker).

TypeScript numbers that the zod schemas constrain with `.min(0)` and that
the code only increments/decrements are embedded as `Nat`; the clamp
`Math.max(0, t - 1)` under the guard `t > 0` coincides with `Nat`
subtraction. Timestamp strings produced by `new Date().toISOString()` are
threaded as explicit `now : String` parameters. Presentation-only fields
that no modelled operation reads or writes (category, division, referee,
optional team/weight/belt metadata of participants beyond what the demo
sets) are carried where the source carries them and omitted where no
claim or operation touches them.
-/

/-- Match states, from the `MatchState` enum in match-types.ts. -/
inductive MatchState where
  | SCHEDULED
  | IN_PROGRESS
  | PAUSED
  | FINISHED
  | CANCELLED
deriving DecidableEq, Repr

/-- Score action tags, from the `ScoreAction` enum in match-types.ts. -/
inductive ScoreAction where
  | POINTS_2
  | ADVANTAGE
  | PENALTY
  | SUBMISSION
  | RESET_MATCH
  | START_MATCH
  | PAUSE_MATCH
  | END_MATCH
deriving DecidableEq, Repr

/-- A score record, from `ScoreSchema` (all four counters are `.min(0)`). -/
structure Score where
  points : Nat
  advantages : Nat
  penalties : Nat
  submissions : Nat
deriving DecidableEq, Repr

/-- A participant, from `ParticipantSchema` (team, weight, belt optional). -/
structure Participant where
  id : String
  name : String
  team : Option String := none
  weight : Option Nat := none
  belt : Option String := none
deriving DecidableEq, Repr

/-- The client-side match aggregate, from `MatchSchema` in match-types.ts.
Presentation-only fields no modelled operation touches are omitted. -/
structure Match where
  id : String
  participant1 : Participant
  participant2 : Participant
  duration : Nat
  timeRemaining : Nat
  state : MatchState
  score1 : Score
  score2 : Score
  createdAt : String
  updatedAt : String
deriving DecidableEq, Repr

/-- From `createInitialScore` in match-types.ts. -/
def createInitialScore : Score :=
  { points := 0, advantages := 0, penalties := 0, submissions := 0 }

/-- From `applyScoreAction` in match-types.ts: the switch increments one
counter for the four scoring tags and the `default` branch returns the
copied record unchanged. -/
def applyScoreAction (score : Score) (action : ScoreAction) : Score :=
  match action with
  | ScoreAction.POINTS_2 => { score with points := score.points + 2 }
  | ScoreAction.ADVANTAGE => { score with advantages := score.advantages + 1 }
  | ScoreAction.PENALTY => { score with penalties := score.penalties + 1 }
  | ScoreAction.SUBMISSION => { score with submissions := score.submissions + 1 }
  | _ => score

/-- From `getMatchWinner` in match-types.ts (the copy in the referee page
is textually identical): an early-return chain checking submissions,
disqualification, points, advantages, then fewer penalties. -/
def getMatchWinner (m : Match) : Option String :=
  if m.score1.submissions > 0 then some m.participant1.id
  else if m.score2.submissions > 0 then some m.participant2.id
  else if m.score1.penalties ≥ 3 then some m.participant2.id
  else if m.score2.penalties ≥ 3 then some m.participant1.id
  else if m.score1.points > m.score2.points then some m.participant1.id
  else if m.score2.points > m.score1.points then some m.participant2.id
  else if m.score1.advantages > m.score2.advantages then some m.participant1.id
  else if m.score2.advantages > m.score1.advantages then some m.participant2.id
  else if m.score1.penalties < m.score2.penalties then some m.participant1.id
  else if m.score2.penalties < m.score1.penalties then some m.participant2.id
  else none

/-- The tail of the `getMatchWinner` early-return chain after the two
submission checks (disqualification onwards); the "later steps" that run
when neither submission check fires. -/
def winnerAfterSubmissions (m : Match) : Option String :=
  if m.score1.penalties ≥ 3 then some m.participant2.id
  else if m.score2.penalties ≥ 3 then some m.participant1.id
  else if m.score1.points > m.score2.points then some m.participant1.id
  else if m.score2.points > m.score1.points then some m.participant2.id
  else if m.score1.advantages > m.score2.advantages then some m.participant1.id
  else if m.score2.advantages > m.score1.advantages then some m.participant2.id
  else if m.score1.penalties < m.score2.penalties then some m.participant1.id
  else if m.score2.penalties < m.score1.penalties then some m.participant2.id
  else none

/-- The tail of the `getMatchWinner` chain from the points comparison on;
the "later steps" that run when neither the submission checks nor the
disqualification checks fire. -/
def winnerFromPoints (m : Match) : Option String :=
  if m.score1.points > m.score2.points then some m.participant1.id
  else if m.score2.points > m.score1.points then some m.participant2.id
  else if m.score1.advantages > m.score2.advantages then some m.participant1.id
  else if m.score2.advantages > m.score1.advantages then some m.participant2.id
  else if m.score1.penalties < m.score2.penalties then some m.participant1.id
  else if m.score2.penalties < m.score1.penalties then some m.participant2.id
  else none

/-- The tie-break rule exactly as the specification words it (spec 4.5):
step 1 fires only when EXACTLY ONE participant has submissions, step 2
only when exactly one has penalties at or above 3; written from the spec
text to be compared with the source function `getMatchWinner`. -/
def specTieBreak (id1 id2 : String) (s1 s2 : Score) : Option String :=
  if s1.submissions > 0 ∧ s2.submissions = 0 then some id1
  else if s2.submissions > 0 ∧ s1.submissions = 0 then some id2
  else if s1.penalties ≥ 3 ∧ s2.penalties < 3 then some id2
  else if s2.penalties ≥ 3 ∧ s1.penalties < 3 then some id1
  else if s1.points > s2.points then some id1
  else if s2.points > s1.points then some id2
  else if s1.advantages > s2.advantages then some id1
  else if s2.advantages > s1.advantages then some id2
  else if s1.penalties < s2.penalties then some id1
  else if s2.penalties < s1.penalties then some id2
  else none

/-! Client senders from use-match-websocket.ts. The hook throws plain
`Error` values whose messages are fixed strings; they are embedded as an
error enumeration named after those messages. The send functions are
embedded as pure functions of the connection flags and the local match,
returning the error raised (if any), the frames written to the socket,
the resulting local match, and whether the code closed the connection on
that path (it never does in these two functions). -/

/-- Errors thrown by `sendScoreUpdate` / `sendMatchStateUpdate` in
use-match-websocket.ts, named after their message strings. -/
inductive ClientError where
  | onlyRefereesScore
  | onlyRefereesState
  | notConnected
deriving DecidableEq, Repr

/-- Payload built by `ScoreUpdateSchema.parse` in `sendScoreUpdate`. -/
structure ScoreUpdateMsg where
  action : ScoreAction
  participantId : String
  timestamp : String
deriving DecidableEq, Repr

/-- Frames the two senders write to the WebSocket. -/
inductive OutMessage where
  | scoreUpdate (matchId : String) (payload : ScoreUpdateMsg) (timestamp : String)
  | matchStateUpdate (matchId : String) (state : MatchState) (timestamp : String)
deriving DecidableEq, Repr

/-- Observable result of one call to a sender. -/
structure SendOutcome where
  error : Option ClientError
  sent : List OutMessage
  localMatch : Option Match
  connectionClosed : Bool
deriving DecidableEq, Repr

/-- The optimistic local update inside `sendScoreUpdate`: the ternary
`participantId === prev.participant1.id ? score1 : score2` routes EVERY
id that is not participant1 — including ids on neither participant — to
participant2's score. -/
def optimisticScoreUpdate (now participantId : String) (action : ScoreAction)
    (m : Match) : Match :=
  if participantId = m.participant1.id then
    { m with score1 := applyScoreAction m.score1 action, updatedAt := now }
  else
    { m with score2 := applyScoreAction m.score2 action, updatedAt := now }

/-- From `sendScoreUpdate` in use-match-websocket.ts: referee gate, then
connection gate, then send one SCORE_UPDATE frame and apply the
optimistic local update. -/
def sendScoreUpdate (isReferee wsOpen : Bool) (matchId now : String)
    (localMatch : Option Match) (action : ScoreAction) (participantId : String) :
    SendOutcome :=
  if isReferee = false then
    { error := some ClientError.onlyRefereesScore, sent := [],
      localMatch := localMatch, connectionClosed := false }
  else if wsOpen = false then
    { error := some ClientError.notConnected, sent := [],
      localMatch := localMatch, connectionClosed := false }
  else
    { error := none
      sent := [OutMessage.scoreUpdate matchId
        { action := action, participantId := participantId, timestamp := now } now]
      localMatch := localMatch.map (optimisticScoreUpdate now participantId action)
      connectionClosed := false }

/-- From `sendMatchStateUpdate` in use-match-websocket.ts: referee gate,
connection gate, then one MATCH_STATE_UPDATE frame and the optimistic
state change (this sender does not touch `updatedAt`). -/
def sendMatchStateUpdate (isReferee wsOpen : Bool) (matchId now : String)
    (localMatch : Option Match) (newState : MatchState) : SendOutcome :=
  if isReferee = false then
    { error := some ClientError.onlyRefereesState, sent := [],
      localMatch := localMatch, connectionClosed := false }
  else if wsOpen = false then
    { error := some ClientError.notConnected, sent := [],
      localMatch := localMatch, connectionClosed := false }
  else
    { error := none
      sent := [OutMessage.matchStateUpdate matchId newState now]
      localMatch := localMatch.map (fun m => { m with state := newState })
      connectionClosed := false }

/-! Auto-finish callback of the referee page (RefereePage onMatchUpdate). -/

/-- The `hasSubmission` local of `onMatchUpdate` in the referee page. -/
def hasSubmission (m : Match) : Bool :=
  decide (m.score1.submissions > 0) || decide (m.score2.submissions > 0)

/-- The `hasDisqualification` local of `onMatchUpdate` in the referee page. -/
def hasDisqualification (m : Match) : Bool :=
  decide (m.score1.penalties ≥ 3) || decide (m.score2.penalties ≥ 3)

/-- The auto-finish logic of `onMatchUpdate` in the referee page: on an
IN_PROGRESS update with a submission or a third penalty on either side it
calls `sendMatchStateUpdate(FINISHED)`, whose optimistic local effect is
`state := FINISHED`. The Bool records whether the call was issued. -/
def refereeOnMatchUpdate (m : Match) : Match × Bool :=
  if m.state = MatchState.IN_PROGRESS then
    if hasSubmission m || hasDisqualification m then
      ({ m with state := MatchState.FINISHED }, true)
    else (m, false)
  else (m, false)

/-- The handler is stateless over server frames: `handleMessage` stores
each incoming MATCH_UPDATE and invokes `onMatchUpdate` on it, so whether
the auto-finish fires on a frame depends on that frame alone. This
counts the FINISHED sends the callback issues while a stream of
arbitrary server-delivered match frames is processed. -/
def matchUpdatesFires : List Match → Nat
  | [] => 0
  | u :: us => (if (refereeOnMatchUpdate u).2 then 1 else 0) + matchUpdatesFires us

/-- Later activity that REFLECTS the handler's own finish: the handler
running again on the current local state (the accepted FINISHED command
echoed back), or a further optimistic score application from
`sendScoreUpdate`. Server frames that do NOT yet reflect the finish are
the general case covered by `matchUpdatesFires` above. -/
inductive FollowUp where
  | echo
  | score (participantId : String) (action : ScoreAction) (now : String)

/-- One follow-up step; the Bool is whether the auto-finish fired. -/
def followUpStep (m : Match) : FollowUp → Match × Bool
  | FollowUp.echo => refereeOnMatchUpdate m
  | FollowUp.score pid a now => (optimisticScoreUpdate now pid a m, false)

/-- Number of auto-finish firings along a list of follow-up steps. -/
def traceFires (m : Match) : List FollowUp → Nat
  | [] => 0
  | f :: fs =>
    (if (followUpStep m f).2 then 1 else 0) + traceFires (followUpStep m f).1 fs

/-! The demo WebSocket hook (the unnamed demo source file): a local match
driven by a one-second ticker plus referee-style update helpers. The
`Math.random()` draws of a tick are abstracted into an explicit oracle. -/

/-- From `createDemoMatch` in the demo hook (six-minute match). -/
def createDemoMatch (matchId now : String) : Match :=
  { id := matchId
    participant1 :=
      { id := "p1", name := "John Doe", team := some "Blue",
        weight := some 75, belt := some "Brown" }
    participant2 :=
      { id := "p2", name := "Mark Smith", team := some "Red",
        weight := some 77, belt := some "Purple" }
    score1 := { points := 0, advantages := 0, penalties := 0, submissions := 0 }
    score2 := { points := 0, advantages := 0, penalties := 0, submissions := 0 }
    duration := 6 * 60
    timeRemaining := 6 * 60
    state := MatchState.SCHEDULED
    createdAt := now
    updatedAt := now }

/-- Which counter `addRandomScore` bumps, abstracting its random draw. -/
inductive ScoreChoice where
  | pts2
  | adv
  | pen
  | sub
deriving DecidableEq, Repr

/-- From `addRandomScore` in the demo hook. -/
def addRandomScore (c : ScoreChoice) (s : Score) : Score :=
  match c with
  | ScoreChoice.pts2 => { s with points := s.points + 2 }
  | ScoreChoice.adv => { s with advantages := s.advantages + 1 }
  | ScoreChoice.pen => { s with penalties := s.penalties + 1 }
  | ScoreChoice.sub => { s with submissions := s.submissions + 1 }

/-- The random draws of one demo tick: for each side, whether the
15-percent test fired and which counter the inner draw picked. -/
structure TickOracle where
  bump1 : Option ScoreChoice
  bump2 : Option ScoreChoice

/-- From the demo ticker body: on an IN_PROGRESS match with time left,
decrement `timeRemaining` (the guard makes `Math.max(0, t-1)` equal to
`t - 1`), maybe bump each score, and finish when the clock reaches 0;
otherwise only `updatedAt` changes. -/
def demoTick (now : String) (o : TickOracle) (m : Match) : Match :=
  let next : Match := { m with updatedAt := now }
  if next.state = MatchState.IN_PROGRESS ∧ next.timeRemaining > 0 then
    let next : Match := { next with timeRemaining := next.timeRemaining - 1 }
    let next : Match :=
      match o.bump1 with
      | some c => { next with score1 := addRandomScore c next.score1 }
      | none => next
    let next : Match :=
      match o.bump2 with
      | some c => { next with score2 := addRandomScore c next.score2 }
      | none => next
    if next.timeRemaining = 0 then { next with state := MatchState.FINISHED }
    else next
  else next

/-- From `updateMatchState` in the demo hook. -/
def demoUpdateMatchState (now : String) (newState : MatchState) (m : Match) : Match :=
  { m with state := newState, updatedAt := now }

/-- From `updateScore` in the demo hook (always applied to score1). -/
def demoUpdateScore (now : String) (action : ScoreAction) (m : Match) : Match :=
  match action with
  | ScoreAction.POINTS_2 =>
    { m with score1 := { m.score1 with points := m.score1.points + 2 }, updatedAt := now }
  | ScoreAction.ADVANTAGE =>
    { m with score1 := { m.score1 with advantages := m.score1.advantages + 1 }, updatedAt := now }
  | ScoreAction.PENALTY =>
    { m with score1 := { m.score1 with penalties := m.score1.penalties + 1 }, updatedAt := now }
  | ScoreAction.SUBMISSION =>
    { m with score1 := { m.score1 with submissions := m.score1.submissions + 1 }, updatedAt := now }
  | _ => { m with updatedAt := now }

/-- One state change the demo hook can make to its local match. -/
inductive DemoStep : Match → Match → Prop where
  | tick (now : String) (o : TickOracle) (m : Match) : DemoStep m (demoTick now o m)
  | updateState (now : String) (s : MatchState) (m : Match) :
      DemoStep m (demoUpdateMatchState now s m)
  | updateScore (now : String) (a : ScoreAction) (m : Match) :
      DemoStep m (demoUpdateScore now a m)

/-- Match states the demo hook can reach from its initial match. -/
inductive DemoReachable (matchId now0 : String) : Match → Prop where
  | init : DemoReachable matchId now0 (createDemoMatch matchId now0)
  | step {m m' : Match} : DemoReachable matchId now0 m → DemoStep m m' →
      DemoReachable matchId now0 m'

/-! The server-side Match Engine. Only its client callers are under the
source tree (the referee Reset button sends MATCH_STATE_UPDATE(SCHEDULED)
through `sendMatchStateUpdate`); the engine itself is modelled from the
specification. -/

/-- Modelled from the spec: the authoritative server-side Match aggregate
of spec section 3, which is not under the source tree (only the client
mirrors are). `version` and the event-log bookkeeping belong to the
Event Log Appender and are outside this state model; timestamps are
abstract instants. -/
structure EngineMatch where
  id : String
  participant1 : Participant
  participant2 : Participant
  duration : Nat
  timeRemaining : Nat
  state : MatchState
  score1 : Score
  score2 : Score
  startedAt : Option Nat
  winnerParticipantId : Option String
deriving DecidableEq, Repr

/-- Modelled from the spec: the engine rejection kinds of spec 4.4. -/
inductive Rejection where
  | InvalidTransition
  | Unauthorized
  | UnknownParticipant
  | MalformedCommand
  | MatchTerminal
deriving DecidableEq, Repr

/-- Modelled from the spec: the engine commands of spec 4.4 (COMMENT,
which changes no state, is omitted). -/
inductive Command where
  | START (now : Nat)
  | PAUSE
  | RESET
  | END
  | CANCEL
  | SCORE (kind : ScoreAction) (participantId : String)
  | TIMER_SET (seconds : Nat)
deriving DecidableEq, Repr

/-- FINISHED and CANCELLED are the terminal states (spec I4). -/
def MatchState.isTerminal : MatchState → Bool
  | MatchState.FINISHED => true
  | MatchState.CANCELLED => true
  | _ => false

/-- Modelled from the spec: the winner the engine records, computed by
the tie-break rule as the spec words it. -/
def engineWinner (m : EngineMatch) : Option String :=
  specTieBreak m.participant1.id m.participant2.id m.score1 m.score2

/-- Modelled from the spec: the RESET effect of spec 4.4 — state to
SCHEDULED, scores zeroed, `timeRemaining = duration`, `startedAt` and
winner cleared. -/
def resetMatch (m : EngineMatch) : EngineMatch :=
  { m with
    state := MatchState.SCHEDULED
    score1 := createInitialScore
    score2 := createInitialScore
    timeRemaining := m.duration
    startedAt := none
    winnerParticipantId := none }

/-- A fresh SCHEDULED engine match, as matches are created externally. -/
def freshScheduled (id : String) (p1 p2 : Participant) (duration : Nat) :
    EngineMatch :=
  { id := id, participant1 := p1, participant2 := p2
    duration := duration, timeRemaining := duration
    state := MatchState.SCHEDULED
    score1 := createInitialScore, score2 := createInitialScore
    startedAt := none, winnerParticipantId := none }

/-- Modelled from the spec: ending a match computes and records the
winner (spec I5). -/
def finishMatch (m : EngineMatch) : EngineMatch :=
  { m with state := MatchState.FINISHED, winnerParticipantId := engineWinner m }

/-- Modelled from the spec: auto-finish evaluated after every accepted
SCORE — any submission or any third penalty on either side ends the
match. -/
def engineAutoFinish (m : EngineMatch) : EngineMatch :=
  if m.score1.submissions > 0 ∨ m.score2.submissions > 0 ∨
      m.score1.penalties ≥ 3 ∨ m.score2.penalties ≥ 3 then
    finishMatch m
  else m

/-- Modelled from the spec: the pure Match Engine command table of spec
4.4. Commands from invalid source states are rejected (MatchTerminal
from terminal states, InvalidTransition otherwise) and reject commands
leave the state untouched. -/
def applyCommand (m : EngineMatch) : Command → Except Rejection EngineMatch
  | Command.START now =>
    if m.state = MatchState.SCHEDULED ∨ m.state = MatchState.PAUSED then
      Except.ok { m with
        state := MatchState.IN_PROGRESS
        startedAt := match m.startedAt with | some t => some t | none => some now }
    else
      Except.error (if m.state.isTerminal then Rejection.MatchTerminal
        else Rejection.InvalidTransition)
  | Command.PAUSE =>
    if m.state = MatchState.IN_PROGRESS then
      Except.ok { m with state := MatchState.PAUSED }
    else
      Except.error (if m.state.isTerminal then Rejection.MatchTerminal
        else Rejection.InvalidTransition)
  | Command.RESET =>
    if m.state.isTerminal then Except.error Rejection.MatchTerminal
    else Except.ok (resetMatch m)
  | Command.END =>
    if m.state = MatchState.IN_PROGRESS ∨ m.state = MatchState.PAUSED then
      Except.ok (finishMatch m)
    else
      Except.error (if m.state.isTerminal then Rejection.MatchTerminal
        else Rejection.InvalidTransition)
  | Command.CANCEL =>
    if m.state.isTerminal then Except.error Rejection.MatchTerminal
    else Except.ok { m with state := MatchState.CANCELLED }
  | Command.SCORE kind pid =>
    if m.state = MatchState.IN_PROGRESS then
      if pid = m.participant1.id then
        Except.ok (engineAutoFinish { m with score1 := applyScoreAction m.score1 kind })
      else if pid = m.participant2.id then
        Except.ok (engineAutoFinish { m with score2 := applyScoreAction m.score2 kind })
      else Except.error Rejection.UnknownParticipant
    else
      Except.error (if m.state.isTerminal then Rejection.MatchTerminal
        else Rejection.InvalidTransition)
  | Command.TIMER_SET seconds =>
    if m.state.isTerminal then Except.error Rejection.MatchTerminal
    else Except.ok { m with timeRemaining := min seconds m.duration }

/-- Run a command sequence through the engine; rejected commands leave
the match unchanged (spec section 7: no error kind causes data loss). -/
def runCommands (m : EngineMatch) (cs : List Command) : EngineMatch :=
  cs.foldl
    (fun s c => match applyCommand s c with
      | Except.ok s2 => s2
      | Except.error _ => s)
    m

/-! Concrete fixtures used by witnesses and counterexamples. -/

/-- An IN_PROGRESS two-participant match with the given scores. -/
def mkTestMatch (s1 s2 : Score) : Match :=
  { id := "m1"
    participant1 := { id := "p1", name := "John Doe" }
    participant2 := { id := "p2", name := "Mark Smith" }
    duration := 360
    timeRemaining := 300
    state := MatchState.IN_PROGRESS
    score1 := s1
    score2 := s2
    createdAt := "t0"
    updatedAt := "t0" }

/-- Both participants have a submission; participant2 also leads on
points, so the later tie-break steps would pick participant2. -/
def bothSubmissionsMatch : Match :=
  mkTestMatch
    { points := 0, advantages := 0, penalties := 0, submissions := 1 }
    { points := 2, advantages := 0, penalties := 0, submissions := 1 }

/-- No submissions, both participants at 3 penalties, participant1 ahead
on points, so the later tie-break steps would pick participant1. -/
def bothDisqualifiedMatch : Match :=
  mkTestMatch
    { points := 2, advantages := 0, penalties := 3, submissions := 0 }
    { points := 0, advantages := 0, penalties := 3, submissions := 0 }

/-- C1 counterexample: when BOTH participants have submissions, the code
awards the win to participant1 at the submission step, while the claim
says the submission step selects no winner and the later steps apply —
which (both in the code tail and in the tie-break as the spec words it)
would award participant2. -/
theorem getMatchWinner_both_submissions_counterexample :
    getMatchWinner bothSubmissionsMatch = some "p1" ∧
    winnerAfterSubmissions bothSubmissionsMatch = some "p2" ∧
    specTieBreak "p1" "p2" bothSubmissionsMatch.score1 bothSubmissionsMatch.score2 =
      some "p2" := by
  refine ⟨rfl, rfl, rfl⟩

/-- C1 (amended): if exactly one participant has submissions they win;
if BOTH have submissions, participant1 wins because score1 is checked
first; the later steps apply exactly when neither has a submission. -/
theorem getMatchWinner_submission_step (m : Match) :
    (0 < m.score1.submissions → m.score2.submissions = 0 →
      getMatchWinner m = some m.participant1.id) ∧
    (0 < m.score2.submissions → m.score1.submissions = 0 →
      getMatchWinner m = some m.participant2.id) ∧
    (0 < m.score1.submissions → 0 < m.score2.submissions →
      getMatchWinner m = some m.participant1.id) ∧
    (m.score1.submissions = 0 → m.score2.submissions = 0 →
      getMatchWinner m = winnerAfterSubmissions m) := by
  unfold getMatchWinner winnerAfterSubmissions
  refine ⟨?_, ?_, ?_, ?_⟩
  · intro h1 _
    rw [if_pos h1]
  · intro h2 h1
    rw [if_neg (by omega), if_pos h2]
  · intro h1 _
    rw [if_pos h1]
  · intro h1 h2
    rw [if_neg (by omega), if_neg (by omega)]

/-- Witness for the amended C1 theorem at a concrete single-submission
match. -/
theorem getMatchWinner_submission_step_witness :
    0 < (1 : Nat) ∧
    getMatchWinner
      (mkTestMatch
        { points := 0, advantages := 0, penalties := 0, submissions := 1 }
        { points := 9, advantages := 0, penalties := 0, submissions := 0 }) =
      some "p1" :=
  ⟨Nat.zero_lt_one,
    (getMatchWinner_submission_step
      (mkTestMatch
        { points := 0, advantages := 0, penalties := 0, submissions := 1 }
        { points := 9, advantages := 0, penalties := 0, submissions := 0 })).1
      Nat.zero_lt_one rfl⟩

/-- C2 counterexample: with no submissions and BOTH participants at 3 or
more penalties, the code awards participant2 at the disqualification
step (score1 is checked first), while the claim says that step then
selects no winner and the later steps apply — which (both in the code
tail and in the tie-break as the spec words it) would award participant1
on points. -/
theorem getMatchWinner_both_disqualified_counterexample :
    getMatchWinner bothDisqualifiedMatch = some "p2" ∧
    winnerFromPoints bothDisqualifiedMatch = some "p1" ∧
    specTieBreak "p1" "p2" bothDisqualifiedMatch.score1 bothDisqualifiedMatch.score2 =
      some "p1" := by
  refine ⟨rfl, rfl, rfl⟩

/-- C2 (amended): on a match where the submission step selected no winner
(neither side has submissions), a single disqualification awards the
other participant; if BOTH are at 3 or more penalties, participant2
loses out is wrong — participant2 WINS because score1's disqualification
is checked first; the later steps apply exactly when neither side is
disqualified. -/
theorem getMatchWinner_penalty_step (m : Match)
    (hs1 : m.score1.submissions = 0) (hs2 : m.score2.submissions = 0) :
    (3 ≤ m.score1.penalties → m.score2.penalties < 3 →
      getMatchWinner m = some m.participant2.id) ∧
    (3 ≤ m.score2.penalties → m.score1.penalties < 3 →
      getMatchWinner m = some m.participant1.id) ∧
    (3 ≤ m.score1.penalties → 3 ≤ m.score2.penalties →
      getMatchWinner m = some m.participant2.id) ∧
    (m.score1.penalties < 3 → m.score2.penalties < 3 →
      getMatchWinner m = winnerFromPoints m) := by
  unfold getMatchWinner winnerFromPoints
  rw [if_neg (by omega), if_neg (by omega)]
  refine ⟨?_, ?_, ?_, ?_⟩
  · intro h1 _
    rw [if_pos h1]
  · intro h2 h1
    rw [if_neg (by omega), if_pos h2]
  · intro h1 _
    rw [if_pos h1]
  · intro h1 h2
    rw [if_neg (by omega), if_neg (by omega)]

/-- Witness for the amended C2 theorem at a concrete single-side
disqualification. -/
theorem getMatchWinner_penalty_step_witness :
    getMatchWinner
      (mkTestMatch
        { points := 6, advantages := 0, penalties := 3, submissions := 0 }
        { points := 0, advantages := 0, penalties := 0, submissions := 0 }) =
      some "p2" :=
  (getMatchWinner_penalty_step
    (mkTestMatch
      { points := 6, advantages := 0, penalties := 3, submissions := 0 }
      { points := 0, advantages := 0, penalties := 0, submissions := 0 })
    rfl rfl).1 (by decide) (by decide)

/-- C3: with no submissions and neither side disqualified, higher points
win; on equal points higher advantages win; on equal advantages fewer
penalties win; and with all three equal there is no winner. -/
theorem getMatchWinner_points_advantages_penalties (m : Match)
    (hs1 : m.score1.submissions = 0) (hs2 : m.score2.submissions = 0)
    (hp1 : m.score1.penalties < 3) (hp2 : m.score2.penalties < 3) :
    (m.score2.points < m.score1.points →
      getMatchWinner m = some m.participant1.id) ∧
    (m.score1.points < m.score2.points →
      getMatchWinner m = some m.participant2.id) ∧
    (m.score1.points = m.score2.points →
      (m.score2.advantages < m.score1.advantages →
        getMatchWinner m = some m.participant1.id) ∧
      (m.score1.advantages < m.score2.advantages →
        getMatchWinner m = some m.participant2.id) ∧
      (m.score1.advantages = m.score2.advantages →
        (m.score1.penalties < m.score2.penalties →
          getMatchWinner m = some m.participant1.id) ∧
        (m.score2.penalties < m.score1.penalties →
          getMatchWinner m = some m.participant2.id) ∧
        (m.score1.penalties = m.score2.penalties →
          getMatchWinner m = none))) := by
  unfold getMatchWinner
  rw [if_neg (by omega), if_neg (by omega), if_neg (by omega), if_neg (by omega)]
  refine ⟨?_, ?_, ?_⟩
  · intro h
    rw [if_pos h]
  · intro h
    rw [if_neg (by omega), if_pos h]
  · intro hpts
    rw [if_neg (by omega), if_neg (by omega)]
    refine ⟨?_, ?_, ?_⟩
    · intro h
      rw [if_pos h]
    · intro h
      rw [if_neg (by omega), if_pos h]
    · intro hadv
      rw [if_neg (by omega), if_neg (by omega)]
      refine ⟨?_, ?_, ?_⟩
      · intro h
        rw [if_pos h]
      · intro h
        rw [if_neg (by omega), if_pos h]
      · intro hpen
        rw [if_neg (by omega), if_neg (by omega)]

/-- Witness for C3 at a concrete fully tied match: a draw. -/
theorem getMatchWinner_points_advantages_penalties_witness :
    getMatchWinner
      (mkTestMatch
        { points := 2, advantages := 1, penalties := 1, submissions := 0 }
        { points := 2, advantages := 1, penalties := 1, submissions := 0 }) =
      none :=
  (((getMatchWinner_points_advantages_penalties
      (mkTestMatch
        { points := 2, advantages := 1, penalties := 1, submissions := 0 }
        { points := 2, advantages := 1, penalties := 1, submissions := 0 })
      rfl rfl (by decide) (by decide)).2.2 rfl).2.2 rfl).2.2 rfl

/-- C5: each scoring action bumps exactly its own counter (by 2 for
POINTS_2, by 1 otherwise) and leaves the other three counters unchanged;
two POINTS_2 applications from the initial score give 4 points. -/
theorem applyScoreAction_scoring (s : Score) :
    (applyScoreAction s ScoreAction.POINTS_2).points = s.points + 2 ∧
    (applyScoreAction s ScoreAction.POINTS_2).advantages = s.advantages ∧
    (applyScoreAction s ScoreAction.POINTS_2).penalties = s.penalties ∧
    (applyScoreAction s ScoreAction.POINTS_2).submissions = s.submissions ∧
    (applyScoreAction s ScoreAction.ADVANTAGE).advantages = s.advantages + 1 ∧
    (applyScoreAction s ScoreAction.ADVANTAGE).points = s.points ∧
    (applyScoreAction s ScoreAction.ADVANTAGE).penalties = s.penalties ∧
    (applyScoreAction s ScoreAction.ADVANTAGE).submissions = s.submissions ∧
    (applyScoreAction s ScoreAction.PENALTY).penalties = s.penalties + 1 ∧
    (applyScoreAction s ScoreAction.PENALTY).points = s.points ∧
    (applyScoreAction s ScoreAction.PENALTY).advantages = s.advantages ∧
    (applyScoreAction s ScoreAction.PENALTY).submissions = s.submissions ∧
    (applyScoreAction s ScoreAction.SUBMISSION).submissions = s.submissions + 1 ∧
    (applyScoreAction s ScoreAction.SUBMISSION).points = s.points ∧
    (applyScoreAction s ScoreAction.SUBMISSION).advantages = s.advantages ∧
    (applyScoreAction s ScoreAction.SUBMISSION).penalties = s.penalties ∧
    (applyScoreAction (applyScoreAction createInitialScore ScoreAction.POINTS_2)
      ScoreAction.POINTS_2).points = 4 :=
  ⟨rfl, rfl, rfl, rfl, rfl, rfl, rfl, rfl, rfl, rfl, rfl, rfl, rfl, rfl, rfl, rfl,
    rfl⟩

/-- C10: the four non-scoring action tags fall into the default branch of
`applyScoreAction` and return the score record unchanged. -/
theorem applyScoreAction_nonscoring_identity (s : Score) :
    applyScoreAction s ScoreAction.RESET_MATCH = s ∧
    applyScoreAction s ScoreAction.START_MATCH = s ∧
    applyScoreAction s ScoreAction.PAUSE_MATCH = s ∧
    applyScoreAction s ScoreAction.END_MATCH = s :=
  ⟨rfl, rfl, rfl, rfl⟩

/-- C7: both mutating senders gate on the referee flag FIRST: a
non-referee call errors with the respective referee-only error before
any frame is written, the local match is untouched, and the connection
stays open; since no frame reaches the server, no event can be appended
and nothing can be broadcast. -/
theorem nonReferee_mutation_rejected (wsOpen : Bool) (matchId now : String)
    (lm : Option Match) (a : ScoreAction) (pid : String) (s : MatchState) :
    sendScoreUpdate false wsOpen matchId now lm a pid =
      { error := some ClientError.onlyRefereesScore, sent := [],
        localMatch := lm, connectionClosed := false } ∧
    sendMatchStateUpdate false wsOpen matchId now lm s =
      { error := some ClientError.onlyRefereesState, sent := [],
        localMatch := lm, connectionClosed := false } :=
  ⟨rfl, rfl⟩

/-- An IN_PROGRESS match with zero scores, target of the unknown-id
SCORE command. -/
def unknownPidStart : Match := mkTestMatch createInitialScore createInitialScore

/-- The engine-side counterpart of `unknownPidStart`. -/
def engineUnknownPidStart : EngineMatch :=
  { id := "m1"
    participant1 := { id := "p1", name := "John Doe" }
    participant2 := { id := "p2", name := "Mark Smith" }
    duration := 360
    timeRemaining := 300
    state := MatchState.IN_PROGRESS
    score1 := createInitialScore
    score2 := createInitialScore
    startedAt := some 0
    winnerParticipantId := none }

/-- C8: a SCORE command naming an id on neither participant is NOT
rejected by the client: `sendScoreUpdate` raises no error, sends the
frame, and its optimistic update books the points onto participant2,
because the ternary routes every non-participant1 id to score2; the
spec-modelled engine rejects the same command with UnknownParticipant
and changes nothing. -/
theorem unknownParticipant_scores_participant2 :
    "ghost" ≠ unknownPidStart.participant1.id ∧
    "ghost" ≠ unknownPidStart.participant2.id ∧
    (sendScoreUpdate true true "m1" "t1" (some unknownPidStart)
      ScoreAction.POINTS_2 "ghost").error = none ∧
    (sendScoreUpdate true true "m1" "t1" (some unknownPidStart)
      ScoreAction.POINTS_2 "ghost").sent ≠ [] ∧
    (sendScoreUpdate true true "m1" "t1" (some unknownPidStart)
      ScoreAction.POINTS_2 "ghost").localMatch =
      some { unknownPidStart with
        score2 := { unknownPidStart.score2 with points := 2 }, updatedAt := "t1" } ∧
    applyCommand engineUnknownPidStart (Command.SCORE ScoreAction.POINTS_2 "ghost") =
      Except.error Rejection.UnknownParticipant := by
  refine ⟨by decide, by decide, rfl, by decide, by decide, rfl⟩

/-- A follow-up step from a FINISHED local match keeps the match
FINISHED and never fires the auto-finish. -/
theorem followUpStep_finished (m : Match) (f : FollowUp)
    (h : m.state = MatchState.FINISHED) :
    (followUpStep m f).1.state = MatchState.FINISHED ∧
    (followUpStep m f).2 = false := by
  cases f with
  | echo =>
    have hc : ¬ m.state = MatchState.IN_PROGRESS := by
      rw [h]
      intro hx
      exact MatchState.noConfusion hx
    unfold followUpStep refereeOnMatchUpdate
    rw [if_neg hc]
    exact ⟨h, rfl⟩
  | score pid a now =>
    by_cases hp : pid = m.participant1.id <;>
      simp [followUpStep, optimisticScoreUpdate, hp, h]

/-- From a FINISHED local match, no follow-up trace ever fires the
auto-finish again. -/
theorem traceFires_finished (m : Match) (h : m.state = MatchState.FINISHED)
    (fs : List FollowUp) : traceFires m fs = 0 := by
  induction fs generalizing m with
  | nil => rfl
  | cons f fs ih =>
    have hf := followUpStep_finished m f h
    unfold traceFires
    rw [hf.2, ih _ hf.1]
    simp

/-- The auto-finish fires on a server frame exactly when that frame is
IN_PROGRESS and carries a submission or 3+ penalties on either side:
the callback keeps no memory of having fired before. -/
theorem refereeOnMatchUpdate_fires_iff (u : Match) :
    (refereeOnMatchUpdate u).2 = true ↔
      (u.state = MatchState.IN_PROGRESS ∧
        (0 < u.score1.submissions ∨ 0 < u.score2.submissions ∨
          3 ≤ u.score1.penalties ∨ 3 ≤ u.score2.penalties)) := by
  unfold refereeOnMatchUpdate
  by_cases hs : u.state = MatchState.IN_PROGRESS
  · rw [if_pos hs]
    cases hb : hasSubmission u || hasDisqualification u
    · unfold hasSubmission hasDisqualification at hb
      simp at hb
      simp [hs]
      omega
    · unfold hasSubmission hasDisqualification at hb
      simp at hb
      simp [hs]
      omega
  · rw [if_neg hs]
    simp [hs]

/-- An IN_PROGRESS match update carrying a fresh submission. -/
def submissionUpdate : Match :=
  mkTestMatch
    { points := 0, advantages := 0, penalties := 0, submissions := 1 }
    createInitialScore

/-- C4 counterexample: the callback is stateless over server frames, so
when a second IN_PROGRESS MATCH_UPDATE still carrying the submission is
delivered (the FINISHED command has not round-tripped yet), the
auto-finish fires AGAIN: over the two-frame stream it fires twice, not
exactly once. -/
theorem refereeAutoFinish_twice_counterexample :
    (refereeOnMatchUpdate submissionUpdate).2 = true ∧
    (refereeOnMatchUpdate submissionUpdate).1.state = MatchState.FINISHED ∧
    matchUpdatesFires [submissionUpdate, submissionUpdate] = 2 := by
  refine ⟨rfl, rfl, rfl⟩

/-- C4 (amended): on an IN_PROGRESS match update with a submission or a
third penalty on either side, the referee callback issues the FINISHED
state update (ending the match locally). The auto-finish is issued once
PER qualifying observed update, not globally once: it fires on a frame
exactly when that frame is IN_PROGRESS and satisfies the condition, so
a further IN_PROGRESS frame still satisfying it triggers it again, and
it stops only once the observed updates reflect the finish — along any
follow-up trace of handler echoes of the finished local state and
further optimistic score commands it never fires again. -/
theorem refereeAutoFinish_per_update (m : Match)
    (hstate : m.state = MatchState.IN_PROGRESS)
    (hcond : 0 < m.score1.submissions ∨ 0 < m.score2.submissions ∨
      3 ≤ m.score1.penalties ∨ 3 ≤ m.score2.penalties) :
    (refereeOnMatchUpdate m).2 = true ∧
    (refereeOnMatchUpdate m).1.state = MatchState.FINISHED ∧
    (∀ us : List Match,
      matchUpdatesFires (m :: us) = 1 + matchUpdatesFires us) ∧
    (∀ u : Match, (refereeOnMatchUpdate u).2 = true ↔
      (u.state = MatchState.IN_PROGRESS ∧
        (0 < u.score1.submissions ∨ 0 < u.score2.submissions ∨
          3 ≤ u.score1.penalties ∨ 3 ≤ u.score2.penalties))) ∧
    ∀ fs : List FollowUp, traceFires (refereeOnMatchUpdate m).1 fs = 0 := by
  have hfire : (refereeOnMatchUpdate m).2 = true :=
    (refereeOnMatchUpdate_fires_iff m).mpr ⟨hstate, hcond⟩
  have hb : (hasSubmission m || hasDisqualification m) = true := by
    unfold hasSubmission hasDisqualification
    rcases hcond with h | h | h | h <;> simp [h]
  refine ⟨hfire, ?_, ?_, refereeOnMatchUpdate_fires_iff, ?_⟩
  · unfold refereeOnMatchUpdate
    rw [if_pos hstate, if_pos hb]
  · intro us
    simp only [matchUpdatesFires]
    rw [hfire]
    simp
  · intro fs
    refine traceFires_finished _ ?_ fs
    unfold refereeOnMatchUpdate
    rw [if_pos hstate, if_pos hb]

/-- An IN_PROGRESS match update carrying a third penalty on
participant2. -/
def penaltyUpdate : Match :=
  mkTestMatch
    createInitialScore
    { points := 0, advantages := 0, penalties := 3, submissions := 0 }

/-- Witness for the amended C4 theorem at a concrete disqualification
update followed by echoes and a further score command. -/
theorem refereeAutoFinish_per_update_witness :
    (refereeOnMatchUpdate penaltyUpdate).2 = true ∧
    (refereeOnMatchUpdate penaltyUpdate).1.state = MatchState.FINISHED ∧
    matchUpdatesFires [penaltyUpdate] = 1 ∧
    traceFires (refereeOnMatchUpdate penaltyUpdate).1
      [FollowUp.echo, FollowUp.score "p1" ScoreAction.POINTS_2 "t2",
        FollowUp.echo] = 0 := by
  have h := refereeAutoFinish_per_update penaltyUpdate rfl
    (Or.inr (Or.inr (Or.inr (by decide))))
  exact ⟨h.1, h.2.1, h.2.2.1 [], h.2.2.2.2 _⟩

/-- On an IN_PROGRESS match a demo tick moves the clock to exactly
`timeRemaining - 1` (truncated at 0: with no time left the guard skips
the decrement and `Nat` subtraction also yields 0). -/
theorem demoTick_timeRemaining (now : String) (o : TickOracle) (m : Match)
    (h : m.state = MatchState.IN_PROGRESS) :
    (demoTick now o m).timeRemaining = m.timeRemaining - 1 := by
  unfold demoTick
  by_cases ht : 0 < m.timeRemaining
  · rw [if_pos ⟨h, ht⟩]
    rcases o with ⟨b1, b2⟩
    cases b1 <;> cases b2 <;> simp only [] <;> split <;> rfl
  · rw [if_neg (fun hc => ht hc.2)]
    have h0 : m.timeRemaining = 0 := by omega
    simp [h0]

/-- A demo tick never increases the clock. -/
theorem demoTick_time_mono (now : String) (o : TickOracle) (m : Match) :
    (demoTick now o m).timeRemaining ≤ m.timeRemaining := by
  unfold demoTick
  by_cases hc : m.state = MatchState.IN_PROGRESS ∧ 0 < m.timeRemaining
  · rw [if_pos hc]
    rcases o with ⟨b1, b2⟩
    cases b1 <;> cases b2 <;> simp only [] <;> split <;> simp
  · rw [if_neg hc]

/-- A demo tick never changes the configured duration. -/
theorem demoTick_duration (now : String) (o : TickOracle) (m : Match) :
    (demoTick now o m).duration = m.duration := by
  unfold demoTick
  by_cases hc : m.state = MatchState.IN_PROGRESS ∧ 0 < m.timeRemaining
  · rw [if_pos hc]
    rcases o with ⟨b1, b2⟩
    cases b1 <;> cases b2 <;> simp only [] <;> split <;> rfl
  · rw [if_neg hc]

/-- The tick that takes the clock of an IN_PROGRESS match from 1 to 0
finishes the match. -/
theorem demoTick_finishes (now : String) (o : TickOracle) (m : Match)
    (h : m.state = MatchState.IN_PROGRESS) (ht : m.timeRemaining = 1) :
    (demoTick now o m).state = MatchState.FINISHED ∧
    (demoTick now o m).timeRemaining = 0 := by
  unfold demoTick
  rw [if_pos ⟨h, by show 0 < m.timeRemaining; omega⟩]
  rcases o with ⟨b1, b2⟩
  cases b1 <;> cases b2 <;> simp [ht]

/-- Every single demo-hook step preserves the clock bound. -/
theorem demoStep_time_le (m m' : Match) (hs : DemoStep m m')
    (ih : m.timeRemaining ≤ m.duration) : m'.timeRemaining ≤ m'.duration := by
  cases hs with
  | tick now o =>
    rw [demoTick_duration]
    exact Nat.le_trans (demoTick_time_mono now o m) ih
  | updateState now s => exact ih
  | updateScore now a => cases a <;> exact ih

/-- The clock never exceeds the duration in any state the demo hook can
reach. -/
theorem demoReachable_time_le (matchId now0 : String) (m : Match)
    (h : DemoReachable matchId now0 m) : m.timeRemaining ≤ m.duration := by
  induction h with
  | init => exact Nat.le_refl _
  | step hr hs ih => exact demoStep_time_le _ _ hs ih

/-- C9: in every match state the demo hook can reach, the clock is
bounded by the duration; a tick on an IN_PROGRESS match decrements the
clock by exactly one (truncated at 0) and a tick never increases it;
and the tick on which the clock of an IN_PROGRESS match reaches 0 sets
the state to FINISHED. -/
theorem demo_timer_invariant_and_expiry :
    (∀ (matchId now0 : String) (m : Match),
      DemoReachable matchId now0 m → m.timeRemaining ≤ m.duration) ∧
    (∀ (now : String) (o : TickOracle) (m : Match),
      m.state = MatchState.IN_PROGRESS →
      (demoTick now o m).timeRemaining = m.timeRemaining - 1) ∧
    (∀ (now : String) (o : TickOracle) (m : Match),
      (demoTick now o m).timeRemaining ≤ m.timeRemaining) ∧
    (∀ (now : String) (o : TickOracle) (m : Match),
      m.state = MatchState.IN_PROGRESS → m.timeRemaining = 1 →
      (demoTick now o m).state = MatchState.FINISHED ∧
      (demoTick now o m).timeRemaining = 0) :=
  ⟨demoReachable_time_le, demoTick_timeRemaining, demoTick_time_mono,
    demoTick_finishes⟩

/-- An IN_PROGRESS match one second from expiry. -/
def expiringMatch : Match :=
  { mkTestMatch createInitialScore createInitialScore with timeRemaining := 1 }

/-- Witness for C9 at the demo initial match and a concrete expiring
tick. -/
theorem demo_timer_invariant_and_expiry_witness :
    (createDemoMatch "m1" "t0").timeRemaining ≤ (createDemoMatch "m1" "t0").duration ∧
    (demoTick "t1" ⟨none, none⟩ expiringMatch).timeRemaining =
      expiringMatch.timeRemaining - 1 ∧
    (demoTick "t1" ⟨none, none⟩ expiringMatch).state = MatchState.FINISHED :=
  ⟨demo_timer_invariant_and_expiry.1 "m1" "t0" _ DemoReachable.init,
    demo_timer_invariant_and_expiry.2.1 "t1" ⟨none, none⟩ expiringMatch rfl,
    (demo_timer_invariant_and_expiry.2.2.2 "t1" ⟨none, none⟩ expiringMatch rfl
      rfl).1⟩

/-- C6 (spec-modelled engine): from any non-terminal state, RESET is
accepted and moves the match to SCHEDULED with both scores zeroed, the
clock restored to the full duration, and `startedAt` and the winner
cleared; the post-RESET match coincides with a fresh SCHEDULED match
built from the static fields alone, so replaying any command sequence
from it yields exactly what the same sequence yields from that fresh
match — RESET erases all prior history. -/
theorem reset_is_true_reset (m : EngineMatch)
    (h : m.state.isTerminal = false) :
    applyCommand m Command.RESET = Except.ok (resetMatch m) ∧
    (resetMatch m).state = MatchState.SCHEDULED ∧
    (resetMatch m).score1 = createInitialScore ∧
    (resetMatch m).score2 = createInitialScore ∧
    (resetMatch m).timeRemaining = m.duration ∧
    (resetMatch m).startedAt = none ∧
    (resetMatch m).winnerParticipantId = none ∧
    resetMatch m = freshScheduled m.id m.participant1 m.participant2 m.duration ∧
    ∀ cs : List Command, runCommands (resetMatch m) cs =
      runCommands (freshScheduled m.id m.participant1 m.participant2 m.duration) cs := by
  refine ⟨?_, rfl, rfl, rfl, rfl, rfl, rfl, rfl, fun cs => rfl⟩
  simp only [applyCommand]
  rw [if_neg (by rw [h]; exact Bool.false_ne_true)]

/-- A mid-match PAUSED engine match with history on every mutable field. -/
def pausedEngineMatch : EngineMatch :=
  { id := "m1"
    participant1 := { id := "p1", name := "John Doe" }
    participant2 := { id := "p2", name := "Mark Smith" }
    duration := 360
    timeRemaining := 77
    state := MatchState.PAUSED
    score1 := { points := 6, advantages := 1, penalties := 2, submissions := 0 }
    score2 := { points := 2, advantages := 0, penalties := 1, submissions := 0 }
    startedAt := some 10
    winnerParticipantId := none }

/-- Witness for C6 at a concrete PAUSED match with non-trivial history. -/
theorem reset_is_true_reset_witness :
    pausedEngineMatch.state.isTerminal = false ∧
    applyCommand pausedEngineMatch Command.RESET =
      Except.ok (resetMatch pausedEngineMatch) ∧
    (resetMatch pausedEngineMatch).timeRemaining = pausedEngineMatch.duration ∧
    runCommands (resetMatch pausedEngineMatch) [Command.START 20] =
      runCommands
        (freshScheduled pausedEngineMatch.id pausedEngineMatch.participant1
          pausedEngineMatch.participant2 pausedEngineMatch.duration)
        [Command.START 20] := by
  have h := reset_is_true_reset pausedEngineMatch rfl
  exact ⟨rfl, h.1, h.2.2.2.2.1, h.2.2.2.2.2.2.2.2 [Command.START 20]⟩
